import Mathlib

/-!
Verification of the request-processing core of the FastAPI-Project-Structure
repository: the exception-to-response translation layer
(`app/core/exceptions.py`), the middleware chain (`app/core/middleware.py`),
the token service (`app/utils/security.py`), and the common query parameters
(`app/utils/dependencies.py`), shallowly embedded in Lean.
-/

namespace FastAPIProject

/-! ## Error taxonomy — `app/core/exceptions.py` -/

/-- The `AppException` object state: `message`, `status_code`, `details`
(a string-keyed mapping, modelled as an association list with opaque
string-rendered values). -/
structure AppExceptionS where
  message : String
  status_code : Nat
  details : List (String × String)
deriving DecidableEq, Repr

/-- `status.HTTP_500_INTERNAL_SERVER_ERROR`, the default `status_code` of
`AppException.__init__`. -/
def HTTP_500_INTERNAL_SERVER_ERROR : Nat := 500

/-- `status.HTTP_422_UNPROCESSABLE_ENTITY`. -/
def HTTP_422_UNPROCESSABLE_ENTITY : Nat := 422

/-- `status.HTTP_404_NOT_FOUND`. -/
def HTTP_404_NOT_FOUND : Nat := 404

/-- `status.HTTP_401_UNAUTHORIZED`. -/
def HTTP_401_UNAUTHORIZED : Nat := 401

/-- `status.HTTP_403_FORBIDDEN`. -/
def HTTP_403_FORBIDDEN : Nat := 403

/-- `AppException.__init__(message, status_code=500, details=None)`:
stores the fields, `details or {}` turning `None` into the empty mapping. -/
def mkAppException (message : String) (status_code : Nat)
    (details : Option (List (String × String))) : AppExceptionS :=
  { message := message
    status_code := status_code
    details := details.getD [] }

/-- `AppException(message)` with the default `status_code`
(no explicit status code passed by the caller). -/
def mkAppExceptionDefault (message : String)
    (details : Option (List (String × String))) : AppExceptionS :=
  mkAppException message HTTP_500_INTERNAL_SERVER_ERROR details

/-- `ValidationException.__init__`: delegates to `AppException` with 422. -/
def mkValidationException (message : String)
    (details : Option (List (String × String))) : AppExceptionS :=
  mkAppException message HTTP_422_UNPROCESSABLE_ENTITY details

/-- `NotFoundException.__init__`: delegates to `AppException` with 404
(and no details argument, hence `None`). -/
def mkNotFoundException (message : String) : AppExceptionS :=
  mkAppException message HTTP_404_NOT_FOUND none

/-- `UnauthorizedException.__init__`: delegates to `AppException` with 401. -/
def mkUnauthorizedException (message : String) : AppExceptionS :=
  mkAppException message HTTP_401_UNAUTHORIZED none

/-- `ForbiddenException.__init__`: delegates to `AppException` with 403. -/
def mkForbiddenException (message : String) : AppExceptionS :=
  mkAppException message HTTP_403_FORBIDDEN none

/-! ## Exception values and the Python class hierarchy -/

/-- The Python classes relevant to exception-handler lookup: the repository's
`AppException` family, Starlette's and FastAPI's `HTTPException`,
FastAPI's `RequestValidationError`, the `Exception` base class, and an
arbitrary other exception class identified by name. Intermediate base
classes that are never registered as handler keys (e.g. FastAPI's internal
validation-exception base) are elided since `_lookup_exception_handler`
skips unregistered classes. -/
inductive PyClass where
  | appException
  | validationException
  | notFoundException
  | unauthorizedException
  | forbiddenException
  | starletteHTTPException
  | fastapiHTTPException
  | requestValidationError
  | exceptionBase
  | otherClass (name : String)
deriving DecidableEq, Repr

/-- The method-resolution order of each class, restricted to the classes
modelled above, as Python computes it:
`ValidationException < AppException < Exception`,
`fastapi.HTTPException < starlette.HTTPException < Exception`, etc. -/
def pyMro : PyClass → List PyClass
  | .appException => [.appException, .exceptionBase]
  | .validationException => [.validationException, .appException, .exceptionBase]
  | .notFoundException => [.notFoundException, .appException, .exceptionBase]
  | .unauthorizedException => [.unauthorizedException, .appException, .exceptionBase]
  | .forbiddenException => [.forbiddenException, .appException, .exceptionBase]
  | .starletteHTTPException => [.starletteHTTPException, .exceptionBase]
  | .fastapiHTTPException => [.fastapiHTTPException, .starletteHTTPException, .exceptionBase]
  | .requestValidationError => [.requestValidationError, .exceptionBase]
  | .exceptionBase => [.exceptionBase]
  | .otherClass n => [.otherClass n, .exceptionBase]

/-- Which of the four registered handlers translates an exception. -/
inductive HandlerKind where
  | appHandler
  | httpHandler
  | validationHandler
  | generalHandler
deriving DecidableEq, Repr

/-- `setup_exception_handlers`: the handler registrations, in registration
order, keyed by exception class:
`AppException`, `StarletteHTTPException`, `RequestValidationError`,
`Exception`. -/
def exceptionHandlers : List (PyClass × HandlerKind) :=
  [(.appException, .appHandler),
   (.starletteHTTPException, .httpHandler),
   (.requestValidationError, .validationHandler),
   (.exceptionBase, .generalHandler)]

/-- Starlette's `_lookup_exception_handler`: walk the exception class's MRO
and return the handler registered for the first class found in the handler
map. -/
def lookupExceptionHandler (cls : PyClass) : Option HandlerKind :=
  (pyMro cls).findSome? (fun c => exceptionHandlers.lookup c)

/-- A raised exception object, with the data each handler reads from it.
`other` covers every exception that is none of the registered kinds
(its class name and message stand in for all information it carries). -/
inductive Exc where
  | appExc (data : AppExceptionS)
  | validationExc (data : AppExceptionS)
  | notFoundExc (data : AppExceptionS)
  | unauthorizedExc (data : AppExceptionS)
  | forbiddenExc (data : AppExceptionS)
  | starletteHTTP (status_code : Nat) (detail : String)
  | fastapiHTTP (status_code : Nat) (detail : String)
  | requestValidationError (errors : List String)
  | other (clsName : String) (info : String)
deriving DecidableEq, Repr

/-- The Python class of an exception object. -/
def Exc.pyClass : Exc → PyClass
  | .appExc _ => .appException
  | .validationExc _ => .validationException
  | .notFoundExc _ => .notFoundException
  | .unauthorizedExc _ => .unauthorizedException
  | .forbiddenExc _ => .forbiddenException
  | .starletteHTTP _ _ => .starletteHTTPException
  | .fastapiHTTP _ _ => .fastapiHTTPException
  | .requestValidationError _ => .requestValidationError
  | .other n _ => .otherClass n

/-- The `details` object of the error envelope: either a plain string-keyed
mapping or the `{"validation_errors": <list>}` shape produced by the
validation handler. -/
inductive DetailsV where
  | dict (entries : List (String × String))
  | validationErrors (validation_errors : List String)
deriving DecidableEq, Repr

/-- A `JSONResponse` built by an exception handler: status code plus the
body `{error, message, details}`. -/
structure JSONResponseV where
  status_code : Nat
  error : Bool
  message : String
  details : DetailsV
deriving DecidableEq, Repr

/-- `app_exception_handler`: status from the exception, body
`{error: true, message: exc.message, details: exc.details}`. -/
def app_exception_handler (exc : AppExceptionS) : JSONResponseV :=
  { status_code := exc.status_code
    error := true
    message := exc.message
    details := .dict exc.details }

/-- `http_exception_handler`: the exception's own status code, body
`{error: true, message: exc.detail, details: {}}`. -/
def http_exception_handler (status_code : Nat) (detail : String) : JSONResponseV :=
  { status_code := status_code
    error := true
    message := detail
    details := .dict [] }

/-- `validation_exception_handler`: status 422, body
`{error: true, message: "Validation error",
details: {validation_errors: exc.errors()}}`. -/
def validation_exception_handler (errors : List String) : JSONResponseV :=
  { status_code := HTTP_422_UNPROCESSABLE_ENTITY
    error := true
    message := "Validation error"
    details := .validationErrors errors }

/-- `general_exception_handler`: ignores the exception entirely and returns
the fixed 500 envelope. -/
def general_exception_handler (_exc : Exc) : JSONResponseV :=
  { status_code := HTTP_500_INTERNAL_SERVER_ERROR
    error := true
    message := "Internal server error"
    details := .dict [] }

/-- The handler that actually fires for each exception (each registered
handler is typed for the family of classes it is registered on). -/
def handleException : Exc → JSONResponseV
  | .appExc d => app_exception_handler d
  | .validationExc d => app_exception_handler d
  | .notFoundExc d => app_exception_handler d
  | .unauthorizedExc d => app_exception_handler d
  | .forbiddenExc d => app_exception_handler d
  | .starletteHTTP sc det => http_exception_handler sc det
  | .fastapiHTTP sc det => http_exception_handler sc det
  | .requestValidationError errs => validation_exception_handler errs
  | .other n info => general_exception_handler (.other n info)

/-- The handler kind used by `handleException` on each exception. -/
def dispatchKind : Exc → HandlerKind
  | .appExc _ => .appHandler
  | .validationExc _ => .appHandler
  | .notFoundExc _ => .appHandler
  | .unauthorizedExc _ => .appHandler
  | .forbiddenExc _ => .appHandler
  | .starletteHTTP _ _ => .httpHandler
  | .fastapiHTTP _ _ => .httpHandler
  | .requestValidationError _ => .validationHandler
  | .other _ _ => .generalHandler

/-- Whether an exception is a Classified Error, i.e. an instance of
`AppException` (including its subclasses). -/
def Exc.isClassified : Exc → Bool
  | .appExc _ => true
  | .validationExc _ => true
  | .notFoundExc _ => true
  | .unauthorizedExc _ => true
  | .forbiddenExc _ => true
  | _ => false

/-! ## Middleware chain — `app/core/middleware.py` -/

/-- A request at the middleware level: the data the interceptors read. -/
structure HTTPRequest where
  method : String
  url : String
deriving DecidableEq, Repr

/-- A response at the middleware level: status plus mutable header mapping
(`response.headers[k] = v` overwrites). -/
structure HTTPResponse where
  status_code : Nat
  headers : List (String × String)
deriving DecidableEq, Repr

/-- `response.headers[k] = v`: set a header, overwriting any existing value
for the (case-normalised) name. -/
def setHeader (hs : List (String × String)) (k v : String) :
    List (String × String) :=
  hs.filter (fun p => p.1 ≠ k) ++ [(k, v)]

/-- Header lookup on a response. -/
def getHeader (hs : List (String × String)) (k : String) : Option String :=
  hs.lookup k

/-- The header-stamping lines of `SecurityHeadersMiddleware.dispatch`:
the four fixed security headers. -/
def securityStamp (response : HTTPResponse) : HTTPResponse :=
  { response with
    headers :=
      setHeader
        (setHeader
          (setHeader
            (setHeader response.headers "X-Content-Type-Options" "nosniff")
            "X-Frame-Options" "DENY")
          "X-XSS-Protection" "1; mode=block")
        "Referrer-Policy" "strict-origin-when-cross-origin" }

/-- The header-stamping lines of `RequestLoggingMiddleware.dispatch`:
`X-Request-ID` and `X-Process-Time`. -/
def loggingStamp (request_id process_time : String)
    (response : HTTPResponse) : HTTPResponse :=
  { response with
    headers :=
      setHeader (setHeader response.headers "X-Request-ID" request_id)
        "X-Process-Time" process_time }

/-- A middleware-level application: `call_next` either returns a response
or lets an exception propagate. -/
def MWApp : Type := HTTPRequest → Except Exc HTTPResponse

/-- `SecurityHeadersMiddleware.dispatch`: `await call_next(request)` has no
surrounding `try`, so a propagating exception passes through unchanged and
nothing is stamped; on a returned response the four security headers are
stamped. -/
def securityHeadersDispatch (call_next : MWApp) (request : HTTPRequest) :
    Except Exc HTTPResponse :=
  match call_next request with
  | .error exc => .error exc
  | .ok response => .ok (securityStamp response)

/-- `RequestLoggingMiddleware.dispatch`: on an exception from
`call_next` it logs "request failed" and re-raises — the two headers are
only stamped on the success path, after the completion log. The generated
UUID and the measured elapsed time are ambient effects, passed in as
parameters; logging is a pure side channel and is not modelled. -/
def requestLoggingDispatch (request_id process_time : String)
    (call_next : MWApp) (request : HTTPRequest) :
    Except Exc HTTPResponse :=
  match call_next request with
  | .error exc => .error exc
  | .ok response => .ok (loggingStamp request_id process_time response)

/-- `CORSMiddleware` on a simple (non-preflight) request without
rejection: passes the request and any propagating exception through; its
`Access-Control-Allow-*` header stamping is out of scope for the claims
verified here. -/
def corsDispatch (call_next : MWApp) (request : HTTPRequest) :
    Except Exc HTTPResponse :=
  call_next request

/-- The handler registrations that Starlette's `build_middleware_stack`
routes to the innermost `ExceptionMiddleware`: every key of
`setup_exception_handlers` except `Exception` (which is routed to
`ServerErrorMiddleware` instead). -/
def exceptionMiddlewareHandlers : List (PyClass × HandlerKind) :=
  [(.appException, .appHandler),
   (.starletteHTTPException, .httpHandler),
   (.requestValidationError, .validationHandler)]

/-- `ExceptionMiddleware`'s handler lookup: the first class of the raised
exception's MRO with a registered specific handler. -/
def lookupInnerHandler (cls : PyClass) : Option HandlerKind :=
  (pyMro cls).findSome? (fun c => exceptionMiddlewareHandlers.lookup c)

/-- Modelled from the spec and Starlette's documented behaviour (framework
code, not under `src/`): `ExceptionMiddleware`, the innermost layer wrapping
the router. An exception whose class has a registered specific handler is
translated into that handler's fresh `JSONResponse` (its status code, and
none of the six stamped headers); any other exception is re-raised. -/
def excMiddlewareDispatch (call_next : MWApp) (request : HTTPRequest) :
    Except Exc HTTPResponse :=
  match call_next request with
  | .ok response => .ok response
  | .error exc =>
    match lookupInnerHandler exc.pyClass with
    | some _ =>
      .ok { status_code := (handleException exc).status_code, headers := [] }
    | none => .error exc

/-- Modelled from the spec and Starlette's documented behaviour (framework
code, not under `src/`): `ServerErrorMiddleware`, the outermost layer,
which holds the handler registered for the key `Exception` — here
`general_exception_handler`. An exception escaping the user middleware is
answered with that handler's fresh `JSONResponse` (its status code, and
none of the six stamped headers). -/
def serverErrorMiddlewareDispatch (call_next : MWApp)
    (request : HTTPRequest) : HTTPResponse :=
  match call_next request with
  | .ok response => response
  | .error exc =>
    { status_code := (general_exception_handler exc).status_code
      headers := [] }

/-- The full application stack that `build_middleware_stack` assembles from
`setup_middleware` and `setup_exception_handlers`:
`ServerErrorMiddleware` outermost, then the user middleware
`RequestLoggingMiddleware`, `SecurityHeadersMiddleware`, `CORSMiddleware`
(outer to inner), then `ExceptionMiddleware` wrapping the router
`handlerApp`. -/
def fullAppStack (request_id process_time : String)
    (handlerApp : MWApp) (request : HTTPRequest) : HTTPResponse :=
  serverErrorMiddlewareDispatch
    (requestLoggingDispatch request_id process_time
      (securityHeadersDispatch
        (corsDispatch
          (excMiddlewareDispatch handlerApp)))) request

/-- The six headers the spec requires on every response, with their exact
values. -/
def hasStandardHeaders (resp : HTTPResponse)
    (request_id process_time : String) : Prop :=
  getHeader resp.headers "X-Request-ID" = some request_id
  ∧ getHeader resp.headers "X-Process-Time" = some process_time
  ∧ getHeader resp.headers "X-Content-Type-Options" = some "nosniff"
  ∧ getHeader resp.headers "X-Frame-Options" = some "DENY"
  ∧ getHeader resp.headers "X-XSS-Protection" = some "1; mode=block"
  ∧ getHeader resp.headers "Referrer-Policy" =
      some "strict-origin-when-cross-origin"

/-- The three interceptors registered by `setup_middleware`. -/
inductive MW where
  | requestLogging
  | securityHeaders
  | cors
deriving DecidableEq, Repr

/-- Starlette `app.add_middleware`: inserts at position 0 of the user
middleware list, whose head is the outermost interceptor. -/
def add_middleware (user_middleware : List MW) (m : MW) : List MW :=
  m :: user_middleware

/-- `setup_middleware`: registers CORS first, then security headers, then
request logging; the resulting list is ordered outermost first. -/
def setup_middleware : List MW :=
  add_middleware
    (add_middleware (add_middleware [] .cors) .securityHeaders)
    .requestLogging

/-- Events of one traversal of the middleware chain: each interceptor acts
on the way in, the handler runs, then each acts on the way out. -/
inductive ChainEvent where
  | enter (m : MW)
  | handlerRun
  | leave (m : MW)
deriving DecidableEq, Repr

/-- The traversal order of a middleware stack (outermost first in the
list): each interceptor's inbound action, recursively the rest of the
chain, then its outbound action. -/
def runStack : List MW → List ChainEvent
  | [] => [.handlerRun]
  | m :: rest => .enter m :: (runStack rest ++ [.leave m])

/-! ## Token service — `app/utils/security.py` -/

/-- A JSON-like claim value in a token payload. -/
inductive JVal where
  | null
  | str (s : String)
  | num (n : Int)
deriving DecidableEq, Repr

/-- A claim mapping, as an association list (first binding wins on
lookup, matching dict semantics for duplicate-free lists). -/
def Payload := List (String × JVal)

instance : DecidableEq Payload := by
  unfold Payload
  infer_instance

instance : Repr Payload := by
  unfold Payload
  infer_instance

/-- `d[k] = v` on a dict: remove any existing binding of `k` and bind it
to `v` (lookup-equivalent to Python's in-place update). -/
def dictSet (p : Payload) (k : String) (v : JVal) : Payload :=
  p.filter (fun kv => kv.1 ≠ k) ++ [(k, v)]

/-- `d.get(k)`: the bound value, or `None` when absent. -/
def pyGet (p : Payload) (k : String) : JVal :=
  match p.lookup k with
  | some v => v
  | none => .null

/-- The configuration fields the token service reads
(`app/core/config.py` defaults): signing key, algorithm, and default token
lifetime in minutes. -/
structure SettingsS where
  secret_key : String
  algorithm : String
  access_token_expire_minutes : Int
deriving DecidableEq, Repr

/-- The `Settings()` defaults from `app/core/config.py`. -/
def settings : SettingsS :=
  { secret_key := "your-secret-key-change-in-production"
    algorithm := "HS256"
    access_token_expire_minutes := 30 }

/-- A JWT as the `jose` library sees it: a well-formed signed token records
the encoded payload, the signing key and the algorithm; anything else is a
malformed token string. -/
inductive Token where
  | signed (payload : Payload) (key : String) (alg : String)
  | malformed (raw : String)
deriving DecidableEq, Repr

/-- The `jose` failures relevant here, all subclasses of `JWTError`. -/
inductive JWTError where
  | invalidSignature
  | malformedToken
  | expiredSignature
deriving DecidableEq, Repr

/-- `jose.jwt.encode(claims, key, algorithm)`. -/
def jwt_encode (claims : Payload) (key : String) (alg : String) : Token :=
  .signed claims key alg

/-- `jose.jwt.decode(token, key, algorithms)` at time `now` (seconds):
fails on a malformed token, on a key or algorithm mismatch, and — with the
default zero leeway — on an `exp` claim strictly before `now`; otherwise
returns the claims. Times are integral seconds. -/
def jwt_decode (token : Token) (key : String) (algs : List String)
    (now : Int) : Except JWTError Payload :=
  match token with
  | .malformed _ => .error .malformedToken
  | .signed claims k alg =>
    if k = key ∧ alg ∈ algs then
      match claims.lookup "exp" with
      | some (.num e) =>
        if e < now then .error .expiredSignature else .ok claims
      | _ => .ok claims
    else .error .invalidSignature

/-- Python truthiness of an `Optional[timedelta]` (seconds): `None` and
`timedelta(0)` are falsy, every nonzero delta is truthy. -/
def timedeltaTruthy : Option Int → Bool
  | none => false
  | some d => d ≠ 0

/-- `create_access_token(data, expires_delta)` at time `now` (seconds):
copies the claims, computes `expire` as `now + expires_delta` when
`expires_delta` is truthy and otherwise `now + access_token_expire_minutes`
minutes, overwrites the `exp` claim with it, and signs with the configured
key and algorithm. -/
def create_access_token (data : Payload) (expires_delta : Option Int)
    (now : Int) : Token :=
  let expire : Int :=
    if timedeltaTruthy expires_delta then
      now + expires_delta.getD 0
    else
      now + settings.access_token_expire_minutes * 60
  let to_encode := dictSet data "exp" (.num expire)
  jwt_encode to_encode settings.secret_key settings.algorithm

/-- `verify_token(token)` at time `now`: decode with the configured key and
algorithm; any `JWTError` is replaced by
`UnauthorizedException("Invalid token")`. -/
def verify_token (token : Token) (now : Int) :
    Except AppExceptionS Payload :=
  match jwt_decode token settings.secret_key [settings.algorithm] now with
  | .ok payload => .ok payload
  | .error _ => .error (mkUnauthorizedException "Invalid token")

/-- `decode_access_token(token)` at time `now`: verify, read
`payload.get("sub")`, fail with
`UnauthorizedException("Invalid token payload")` when it is `None`, and
return it otherwise. (The `except JWTError` clause around the body never
fires, since `verify_token` already converts `JWTError`. ) -/
def decode_access_token (token : Token) (now : Int) :
    Except AppExceptionS JVal :=
  match verify_token token now with
  | .error e => .error e
  | .ok payload =>
    let username := pyGet payload "sub"
    if username = .null then
      .error (mkUnauthorizedException "Invalid token payload")
    else
      .ok username

/-! ## Common query parameters — `app/utils/dependencies.py` -/

/-- The stored fields of `CommonQueryParams`. -/
structure CommonQueryParams where
  skip : Int
  limit : Int
  order_by : Option String
  order_desc : Bool
deriving DecidableEq, Repr

/-- `CommonQueryParams.__init__(skip, limit, order_by, order_desc)`:
stores `skip`, `min(limit, 1000)`, `order_by`, `order_desc`. -/
def mkCommonQueryParams (skip limit : Int) (order_by : Option String)
    (order_desc : Bool) : CommonQueryParams :=
  { skip := skip
    limit := min limit 1000
    order_by := order_by
    order_desc := order_desc }

/-! ## Helper lemmas: association-list update and lookup -/

theorem lookup_setk_self {α : Type} (l : List (String × α)) (k : String) (v : α) :
    (List.filter (fun p => p.1 ≠ k) l ++ [(k, v)]).lookup k = some v := by
  induction l with
  | nil =>
    have hb : (k == k) = true := beq_self_eq_true k
    simp [List.lookup, hb]
  | cons h t ih =>
    by_cases hk : h.1 = k
    · simpa [List.filter_cons, hk] using ih
    · have hb : (k == h.1) = false := beq_eq_false_iff_ne.mpr (Ne.symm hk)
      simpa [List.filter_cons, hk, List.lookup, hb] using ih

theorem lookup_setk_ne {α : Type} (l : List (String × α)) (k k' : String) (v : α)
    (h : k' ≠ k) :
    (List.filter (fun p => p.1 ≠ k) l ++ [(k, v)]).lookup k' = l.lookup k' := by
  have hb : (k' == k) = false := beq_eq_false_iff_ne.mpr h
  induction l with
  | nil => simp [List.lookup, hb]
  | cons a t ih =>
    by_cases hk : a.1 = k
    · have hb' : (k' == a.1) = false := by
        rw [hk]
        exact hb
      simpa [List.filter_cons, hk, List.lookup, hb', hb] using ih
    · by_cases hk' : k' = a.1
      · have hb' : (k' == a.1) = true := beq_iff_eq.mpr hk'
        simp [List.filter_cons, hk, List.lookup, hb']
      · have hb' : (k' == a.1) = false := beq_eq_false_iff_ne.mpr hk'
        simpa [List.filter_cons, hk, List.lookup, hb'] using ih

theorem getHeader_setHeader_self (hs : List (String × String)) (k v : String) :
    getHeader (setHeader hs k v) k = some v :=
  lookup_setk_self hs k v

theorem getHeader_setHeader_ne (hs : List (String × String)) (k k' v : String)
    (h : k' ≠ k) :
    getHeader (setHeader hs k v) k' = getHeader hs k' :=
  lookup_setk_ne hs k k' v h

theorem lookup_dictSet_self (p : Payload) (k : String) (v : JVal) :
    (dictSet p k v).lookup k = some v :=
  lookup_setk_self p k v

theorem lookup_dictSet_ne (p : Payload) (k k' : String) (v : JVal) (h : k' ≠ k) :
    (dictSet p k v).lookup k' = p.lookup k' :=
  lookup_setk_ne p k k' v h

/-- The value `create_access_token` stores in the `exp` claim: the local
variable `expire` of the source. -/
def tokenExpire (expires_delta : Option Int) (now : Int) : Int :=
  if timedeltaTruthy expires_delta then
    now + expires_delta.getD 0
  else
    now + settings.access_token_expire_minutes * 60

theorem create_access_token_eq (data : Payload) (ed : Option Int) (now : Int) :
    create_access_token data ed now =
      Token.signed (dictSet data "exp" (.num (tokenExpire ed now)))
        settings.secret_key settings.algorithm :=
  rfl

theorem verify_token_create (data : Payload) (ed : Option Int) (now t : Int) :
    verify_token (create_access_token data ed now) t =
      (if tokenExpire ed now < t then
        Except.error (mkUnauthorizedException "Invalid token")
      else
        Except.ok (dictSet data "exp" (JVal.num (tokenExpire ed now)))) := by
  rw [create_access_token_eq]
  unfold verify_token jwt_decode
  dsimp only
  have hcond : settings.secret_key = settings.secret_key
      ∧ settings.algorithm ∈ [settings.algorithm] := ⟨rfl, List.mem_singleton.mpr rfl⟩
  rw [if_pos hcond, lookup_dictSet_self]
  by_cases hlt : tokenExpire ed now < t
  · simp [hlt]
  · simp [hlt]

/-! ## Claims -/

/-- C9: every constructed Classified Error has a `status_code` consistent
with its kind: `ValidationException` 422, `NotFoundException` 404,
`UnauthorizedException` 401, `ForbiddenException` 403, and a plain
`AppException` built without an explicit status code 500. -/
theorem C9_status_code_consistency (m : String)
    (d : Option (List (String × String))) :
    (mkValidationException m d).status_code = 422
    ∧ (mkNotFoundException m).status_code = 404
    ∧ (mkUnauthorizedException m).status_code = 401
    ∧ (mkForbiddenException m).status_code = 403
    ∧ (mkAppExceptionDefault m d).status_code = 500 :=
  ⟨rfl, rfl, rfl, rfl, rfl⟩

/-- C10: `CommonQueryParams.__init__` stores `limit` clamped to
`min(limit, 1000)` — hence never above 1000 — and stores `skip`,
`order_by` and `order_desc` unchanged. -/
theorem C10_limit_clamped (skip limit : Int) (ob : Option String) (od : Bool) :
    (mkCommonQueryParams skip limit ob od).limit = min limit 1000
    ∧ (mkCommonQueryParams skip limit ob od).limit ≤ 1000
    ∧ (mkCommonQueryParams skip limit ob od).skip = skip
    ∧ (mkCommonQueryParams skip limit ob od).order_by = ob
    ∧ (mkCommonQueryParams skip limit ob od).order_desc = od :=
  ⟨rfl, min_le_right _ _, rfl, rfl, rfl⟩

/-- C2: every exception that is none of the registered kinds is translated
by the catch-all into status 500 with body exactly
`{error: true, message: "Internal server error", details: {}}`, whatever
the exception's class name and message — so nothing from the underlying
exception reaches the response. -/
theorem C2_catch_all_sanitized (clsName info : String) :
    handleException (.other clsName info) =
      { status_code := 500
        error := true
        message := "Internal server error"
        details := .dict [] } :=
  rfl

/-- C4: a `RequestValidationError` is translated into status 422 with body
`{error: true, message: "Validation error",
details: {validation_errors: exc.errors()}}`. -/
theorem C4_validation_error_response (errors : List String) :
    handleException (.requestValidationError errors) =
      { status_code := 422
        error := true
        message := "Validation error"
        details := .validationErrors errors } :=
  rfl

/-- C5: `setup_middleware` registers CORS, then security headers, then
request logging, yielding the outer-to-inner order request logger,
security headers, CORS; a traversal of that stack enters the interceptors
in that order and leaves them in the reverse order, the last-registered
interceptor (the request logger) outermost and CORS closest to the
handler. -/
theorem C5_middleware_order :
    setup_middleware = [.requestLogging, .securityHeaders, .cors]
    ∧ runStack setup_middleware =
      [.enter .requestLogging, .enter .securityHeaders, .enter .cors,
       .handlerRun,
       .leave .cors, .leave .securityHeaders, .leave .requestLogging] :=
  ⟨rfl, rfl⟩

/-- C1: Starlette's MRO-based handler lookup over the registrations of
`setup_exception_handlers` always selects the most specific registered
handler: the `AppException` handler for every Classified Error (including
every `AppException` subclass), the Starlette HTTP handler for framework
HTTP failures, the validation handler for `RequestValidationError`, and
the catch-all exactly for exceptions of every other class — a Classified
Error is never routed to the catch-all, and an unclassified exception is
routed to nothing more specific. -/
theorem C1_handler_precedence (exc : Exc) :
    lookupExceptionHandler exc.pyClass = some (dispatchKind exc)
    ∧ (exc.isClassified = true → dispatchKind exc = .appHandler)
    ∧ (∀ n i, exc = .other n i → dispatchKind exc = .generalHandler)
    ∧ (dispatchKind exc = .generalHandler → exc.isClassified = false) := by
  cases exc <;> refine ⟨rfl, ?_, ?_, ?_⟩ <;>
    simp [dispatchKind, Exc.isClassified]

theorem hasStandardHeaders_stamp (r : HTTPResponse)
    (request_id process_time : String) :
    hasStandardHeaders (loggingStamp request_id process_time (securityStamp r))
      request_id process_time := by
  unfold hasStandardHeaders loggingStamp securityStamp
  refine ⟨?_, ?_, ?_, ?_, ?_, ?_⟩
  · rw [getHeader_setHeader_ne _ _ _ _ (by decide), getHeader_setHeader_self]
  · rw [getHeader_setHeader_self]
  · rw [getHeader_setHeader_ne _ _ _ _ (by decide),
      getHeader_setHeader_ne _ _ _ _ (by decide),
      getHeader_setHeader_ne _ _ _ _ (by decide),
      getHeader_setHeader_ne _ _ _ _ (by decide),
      getHeader_setHeader_ne _ _ _ _ (by decide),
      getHeader_setHeader_self]
  · rw [getHeader_setHeader_ne _ _ _ _ (by decide),
      getHeader_setHeader_ne _ _ _ _ (by decide),
      getHeader_setHeader_ne _ _ _ _ (by decide),
      getHeader_setHeader_ne _ _ _ _ (by decide),
      getHeader_setHeader_self]
  · rw [getHeader_setHeader_ne _ _ _ _ (by decide),
      getHeader_setHeader_ne _ _ _ _ (by decide),
      getHeader_setHeader_ne _ _ _ _ (by decide),
      getHeader_setHeader_self]
  · rw [getHeader_setHeader_ne _ _ _ _ (by decide),
      getHeader_setHeader_ne _ _ _ _ (by decide),
      getHeader_setHeader_self]

theorem fullAppStack_ok (handlerApp : MWApp) (request : HTTPRequest)
    (request_id process_time : String) (r : HTTPResponse)
    (h : excMiddlewareDispatch handlerApp request = .ok r) :
    fullAppStack request_id process_time handlerApp request =
      loggingStamp request_id process_time (securityStamp r) := by
  unfold fullAppStack serverErrorMiddlewareDispatch requestLoggingDispatch
    securityHeadersDispatch corsDispatch
  rw [h]

theorem fullAppStack_error (handlerApp : MWApp) (request : HTTPRequest)
    (request_id process_time : String) (exc : Exc)
    (h : excMiddlewareDispatch handlerApp request = .error exc) :
    fullAppStack request_id process_time handlerApp request =
      { status_code := (general_exception_handler exc).status_code
        headers := [] } := by
  unfold fullAppStack serverErrorMiddlewareDispatch requestLoggingDispatch
    securityHeadersDispatch corsDispatch
  rw [h]

theorem lookupInner_classified (exc : Exc) (h : exc.isClassified = true) :
    lookupInnerHandler exc.pyClass = some .appHandler := by
  cases exc <;> first | rfl | simp [Exc.isClassified] at h

/-- C3 counterexample: a request whose handler raises an unclassified
exception is answered by the `Exception` catch-all running in
`ServerErrorMiddleware`, above all user middleware — `RequestLogging`
re-raises without stamping and `SecurityHeaders` has no `try` — so the
final 500 response carries none of the six claimed headers. -/
theorem C3_counterexample :
    let resp := fullAppStack "a1b2c3" "0.001"
      (fun _ => .error (.other "RuntimeError" "boom"))
      { method := "GET", url := "http://testserver/items" }
    resp.status_code = 500
    ∧ getHeader resp.headers "X-Request-ID" = none
    ∧ getHeader resp.headers "X-Process-Time" = none
    ∧ getHeader resp.headers "X-Content-Type-Options" = none
    ∧ getHeader resp.headers "X-Frame-Options" = none
    ∧ getHeader resp.headers "X-XSS-Protection" = none
    ∧ getHeader resp.headers "Referrer-Policy" = none :=
  ⟨rfl, rfl, rfl, rfl, rfl, rfl, rfl⟩

/-- C3 (amended): every response produced at or below the user middleware
carries the six headers with their exact values — successful handler
responses, and failures translated by the specific handlers (Classified
Errors, Starlette/FastAPI HTTP failures, validation failures), which run
in the innermost exception layer. A request failing with an unclassified
exception, however, is answered by the `Exception` catch-all in the
outermost server-error layer, above all header-stamping middleware: that
500 response carries none of the six headers. -/
theorem C3_headers_amended (handlerApp : MWApp) (request : HTTPRequest)
    (request_id process_time : String) :
    (∀ r, handlerApp request = .ok r →
        hasStandardHeaders
          (fullAppStack request_id process_time handlerApp request)
          request_id process_time)
    ∧ (∀ exc, handlerApp request = .error exc → exc.isClassified = true →
        hasStandardHeaders
          (fullAppStack request_id process_time handlerApp request)
          request_id process_time)
    ∧ (∀ sc det, handlerApp request = .error (.starletteHTTP sc det) →
        hasStandardHeaders
          (fullAppStack request_id process_time handlerApp request)
          request_id process_time)
    ∧ (∀ sc det, handlerApp request = .error (.fastapiHTTP sc det) →
        hasStandardHeaders
          (fullAppStack request_id process_time handlerApp request)
          request_id process_time)
    ∧ (∀ errs, handlerApp request = .error (.requestValidationError errs) →
        hasStandardHeaders
          (fullAppStack request_id process_time handlerApp request)
          request_id process_time)
    ∧ (∀ n i, handlerApp request = .error (.other n i) →
        fullAppStack request_id process_time handlerApp request =
          { status_code := 500, headers := [] }) := by
  refine ⟨?_, ?_, ?_, ?_, ?_, ?_⟩
  · intro r h
    have hd : excMiddlewareDispatch handlerApp request = .ok r := by
      unfold excMiddlewareDispatch
      rw [h]
    rw [fullAppStack_ok handlerApp request request_id process_time r hd]
    exact hasStandardHeaders_stamp r request_id process_time
  · intro exc h hcl
    have hd : excMiddlewareDispatch handlerApp request =
        .ok { status_code := (handleException exc).status_code
              headers := [] } := by
      unfold excMiddlewareDispatch
      rw [h]
      dsimp only
      rw [lookupInner_classified exc hcl]
    rw [fullAppStack_ok _ _ _ _ _ hd]
    exact hasStandardHeaders_stamp _ _ _
  · intro sc det h
    have hd : excMiddlewareDispatch handlerApp request =
        .ok { status_code :=
                (handleException (.starletteHTTP sc det)).status_code
              headers := [] } := by
      unfold excMiddlewareDispatch
      rw [h]
      rfl
    rw [fullAppStack_ok _ _ _ _ _ hd]
    exact hasStandardHeaders_stamp _ _ _
  · intro sc det h
    have hd : excMiddlewareDispatch handlerApp request =
        .ok { status_code :=
                (handleException (.fastapiHTTP sc det)).status_code
              headers := [] } := by
      unfold excMiddlewareDispatch
      rw [h]
      rfl
    rw [fullAppStack_ok _ _ _ _ _ hd]
    exact hasStandardHeaders_stamp _ _ _
  · intro errs h
    have hd : excMiddlewareDispatch handlerApp request =
        .ok { status_code :=
                (handleException (.requestValidationError errs)).status_code
              headers := [] } := by
      unfold excMiddlewareDispatch
      rw [h]
      rfl
    rw [fullAppStack_ok _ _ _ _ _ hd]
    exact hasStandardHeaders_stamp _ _ _
  · intro n i h
    have hd : excMiddlewareDispatch handlerApp request =
        .error (.other n i) := by
      unfold excMiddlewareDispatch
      rw [h]
      rfl
    rw [fullAppStack_error _ _ _ _ _ hd]
    rfl

/-- C7: `verify_token` either returns the decoded claims or fails with the
`UnauthorizedException` (status 401) — on a malformed token, on a key or
algorithm mismatch, and on an expired `exp` claim the caller receives that
classified error, never a raw `JWTError`. -/
theorem C7_verify_total (token : Token) (now : Int) :
    ((∃ p, verify_token token now = .ok p)
      ∨ verify_token token now = .error (mkUnauthorizedException "Invalid token"))
    ∧ (mkUnauthorizedException "Invalid token").status_code = HTTP_401_UNAUTHORIZED
    ∧ (∀ raw, verify_token (.malformed raw) now =
        .error (mkUnauthorizedException "Invalid token"))
    ∧ (∀ p k a, ¬(k = settings.secret_key ∧ a ∈ [settings.algorithm]) →
        verify_token (.signed p k a) now =
          .error (mkUnauthorizedException "Invalid token"))
    ∧ (∀ p e, p.lookup "exp" = some (.num e) → e < now →
        verify_token (.signed p settings.secret_key settings.algorithm) now =
          .error (mkUnauthorizedException "Invalid token")) := by
  refine ⟨?_, rfl, ?_, ?_, ?_⟩
  · unfold verify_token
    cases jwt_decode token settings.secret_key [settings.algorithm] now with
    | ok p => exact .inl ⟨p, rfl⟩
    | error e => exact .inr rfl
  · intro raw
    rfl
  · intro p k a hne
    unfold verify_token jwt_decode
    dsimp only
    rw [if_neg hne]
  · intro p e hexp hlt
    unfold verify_token jwt_decode
    dsimp only
    have hcond : settings.secret_key = settings.secret_key
        ∧ settings.algorithm ∈ [settings.algorithm] :=
      ⟨rfl, List.mem_singleton.mpr rfl⟩
    rw [if_pos hcond, hexp]
    simp [hlt]

/-- C7 witness: a signed token with the wrong key fails with the 401
classified error. -/
theorem C7_verify_total_witness :
    verify_token (.signed [] "wrong-key" "HS256") 0 =
      .error (mkUnauthorizedException "Invalid token") :=
  (C7_verify_total (.signed [] "wrong-key" "HS256") 0).2.2.2.1 [] "wrong-key"
    "HS256" (by decide)

/-- C8 counterexample: a valid token whose `sub` claim is the empty string
is accepted by `decode_access_token`, which returns the empty subject
instead of failing with Unauthorized as the claim states. -/
theorem C8_counterexample :
    decode_access_token
      (.signed [("sub", JVal.str ""), ("exp", JVal.num 100)]
        "your-secret-key-change-in-production" "HS256") 0
      = .ok (.str "") := by
  rfl

/-- C8 (amended): `decode_access_token` first runs verification,
propagating its classified error; on a verified payload it fails with
`UnauthorizedException("Invalid token payload")` exactly when
`payload.get("sub")` is `None` (the claim absent or bound to null), and
otherwise returns the `sub` value — including the empty string. -/
theorem C8_decode_subject (token : Token) (now : Int) :
    (∀ e, verify_token token now = .error e →
        decode_access_token token now = .error e)
    ∧ (∀ payload, verify_token token now = .ok payload →
        ((pyGet payload "sub" = .null →
            decode_access_token token now =
              .error (mkUnauthorizedException "Invalid token payload"))
          ∧ (pyGet payload "sub" ≠ .null →
            decode_access_token token now = .ok (pyGet payload "sub")))) := by
  constructor
  · intro e he
    unfold decode_access_token
    rw [he]
  · intro payload hp
    unfold decode_access_token
    rw [hp]
    constructor
    · intro hnull
      simp [hnull]
    · intro hnn
      simp [hnn]

/-- C6 counterexample: issuing at time 0 with ttl = 0 does not store
`exp` equal to the issuance time plus the ttl (0 + 0 = 0): a zero
timedelta is falsy in `if expires_delta:`, so the configured default
lifetime of 30 minutes is used instead and the round-tripped `exp` is
1800. -/
theorem C6_counterexample :
    verify_token (create_access_token [("sub", JVal.str "alice")] (some 0) 0) 0 =
      .ok [("sub", JVal.str "alice"), ("exp", JVal.num 1800)]
    ∧ (1800 : Int) ≠ 0 + 0 := by
  refine ⟨rfl, by decide⟩

/-- C6 (amended): for a provided nonzero ttl, verifying a fresh token
succeeds and returns every original claim unchanged plus `exp` overwritten
to issuance time + ttl, which lies in the future for positive ttl, and
verification after time passes `exp` fails with the Unauthorized error;
when the ttl is omitted — or provided as 0, which Python's truthiness test
treats exactly like omitted — `exp` is issuance time + the configured
default lifetime, and verification after that point fails likewise. -/
theorem C6_token_roundtrip (data : Payload) (now ttl : Int) (hpos : 0 < ttl) :
    (verify_token (create_access_token data (some ttl) now) now =
        .ok (dictSet data "exp" (.num (now + ttl))))
    ∧ ((dictSet data "exp" (.num (now + ttl))).lookup "exp" =
        some (.num (now + ttl)))
    ∧ (∀ k v, k ≠ "exp" → data.lookup k = some v →
        (dictSet data "exp" (.num (now + ttl))).lookup k = some v)
    ∧ now < now + ttl
    ∧ (∀ t, now + ttl < t →
        verify_token (create_access_token data (some ttl) now) t =
          .error (mkUnauthorizedException "Invalid token"))
    ∧ (verify_token (create_access_token data none now) now =
        .ok (dictSet data "exp"
          (.num (now + settings.access_token_expire_minutes * 60))))
    ∧ create_access_token data (some 0) now = create_access_token data none now
    ∧ (∀ t, now + settings.access_token_expire_minutes * 60 < t →
        verify_token (create_access_token data (some 0) now) t =
          .error (mkUnauthorizedException "Invalid token")) := by
  have hne : ttl ≠ 0 := ne_of_gt hpos
  have httl : tokenExpire (some ttl) now = now + ttl := by
    unfold tokenExpire timedeltaTruthy
    simp [hne]
  have hdef : tokenExpire none now =
      now + settings.access_token_expire_minutes * 60 := rfl
  have hzero : tokenExpire (some 0) now =
      now + settings.access_token_expire_minutes * 60 := rfl
  have hmins : settings.access_token_expire_minutes * 60 = 1800 := rfl
  refine ⟨?_, lookup_dictSet_self data "exp" _, ?_, by omega, ?_, ?_, rfl, ?_⟩
  · rw [verify_token_create, httl, if_neg (by omega : ¬(now + ttl < now))]
  · intro k v hk hv
    rw [lookup_dictSet_ne data "exp" k _ hk]
    exact hv
  · intro t ht
    rw [verify_token_create, httl, if_pos ht]
  · rw [verify_token_create, hdef,
      if_neg (by omega : ¬(now + settings.access_token_expire_minutes * 60 < now))]
  · intro t ht
    rw [verify_token_create, hzero, if_pos ht]

/-- C6 witness: a token issued at time 0 with ttl = 60 verifies at time 0
to its original claim plus `exp = 60`. -/
theorem C6_token_roundtrip_witness :
    verify_token (create_access_token [("sub", JVal.str "alice")] (some 60) 0) 0 =
      .ok [("sub", JVal.str "alice"), ("exp", JVal.num 60)] := by
  have h := (C6_token_roundtrip [("sub", JVal.str "alice")] 0 60 (by decide)).1
  simpa [dictSet] using h

end FastAPIProject
